import Mathlib

/-!
# Verification of the uni-bot archive core (src/uni_bot.py)

A shallow embedding of the archive-store core of `src/uni_bot.py`:
the `files` table rows, the classification state (sticky subject binding in
`context.user_data`), the dedup/insert pipeline of `handle_file`, and the
lifecycle operations (soft delete, restore, purge, hard delete).

Modelling conventions:
* UTC timestamps are `Int` seconds.  The source stores ISO-8601 strings with
  seconds precision (`utcnow_str`) and compares them lexicographically in SQL,
  which agrees with chronological comparison for this fixed format, so `Int`
  comparison is faithful.
* SQL `NULL` is `Option.none`; `NULL` never matches an `=` comparison and is
  distinct from every value in a UNIQUE index (SQLite semantics), which is
  reflected in `get_file_by_hash`, `get_file_by_unique` and `hasConflict`.
* The filesystem of retained payload copies (`FILES_DIR`) is a list of paths.
* Telegram I/O, the admin check, the unsupported-kind branch and the
  download-failure branch of `handle_file` are outside the modelled pipeline:
  `handle_file` here is the pipeline for an admin submission of a supported
  kind whose download succeeded (the claims under verification only concern
  that path).  Replies are abstracted into `HandleResult`.
-/

namespace UniBot

/-- One row of the `files` table (schema from `init_db` in src/uni_bot.py). -/
structure FileRow where
  id : Nat
  user_id : Nat
  subject : String
  file_type : String
  tg_file_id : String
  tg_unique_id : Option String
  filename : Option String
  caption : Option String
  local_path : Option String
  file_size : Option Nat
  content_hash : Option String
  added_at : Int
  is_fav : Bool
  is_deleted : Bool
  deleted_at : Option Int
deriving DecidableEq, Repr

/-- The two keys of `context.user_data` used by the classification logic
(`fixed_subject`, `fixed_until`).  Other keys (such as `search_mode`) are
never read or written by the operations modelled here. -/
structure UserData where
  fixed_subject : Option String
  fixed_until : Option Int
deriving DecidableEq, Repr

/-- `user_data` with neither key present. -/
def UserData.empty : UserData := ⟨none, none⟩

/-- The mutable state touched by the archive core: the `files` table, the
next AUTOINCREMENT id, and the set of retained local payload copies. -/
structure BotState where
  rows : List FileRow
  nextId : Nat
  fs : List String
deriving DecidableEq, Repr

/-- The data of one incoming submission, after the media-kind dispatch of
`handle_file` (file_type/tg_file_id/orig_name extraction).  `safe_name` is
the result of `safe_filename(orig_name, fallback)`; `content_hash` is the
result of `sha256_file` on the downloaded payload, `none` when hashing
failed. -/
structure Submission where
  file_type : String
  tg_file_id : String
  tg_unique_id : Option String
  safe_name : String
  caption : Option String
  file_size : Option Nat
  content_hash : Option String
deriving DecidableEq, Repr

/-- The outcome of the `handle_file` pipeline (which reply was sent). -/
inductive HandleResult where
  | noSubject
  | duplicateUnique (exId : Nat)
  | duplicateHash (exId : Nat) (exSubject : String)
  | restoredFromTrash (exId : Nat)
  | added (newId : Nat)
  | integrityError
deriving DecidableEq, Repr

/-- The configured category names (`SUBJECTS` in src/uni_bot.py). -/
def SUBJECTS : List String :=
  ["Poetry", "Writing", "Psychological Health", "Drama", "Linguistics",
   "Novel", "Pedagogy and Curriculum Innovation", "Grammar",
   "Listening and speaking"]

/-- ASCII lower-casing of a string to a character list (Python `.lower()`
on the ASCII category names; also SQLite's ASCII-case-insensitive
`LIKE`). -/
def lowerChars (s : String) : List Char := s.data.map Char.toLower

/-- Python `str.strip()` at the character-list level: drop whitespace from
both ends. -/
def trimChars (l : List Char) : List Char :=
  ((l.dropWhile Char.isWhitespace).reverse.dropWhile Char.isWhitespace).reverse

/-- `normalize_subject`: strip the text, then return the first configured
subject whose name equals it case-insensitively; `None` otherwise. -/
def normalize_subject (text : String) : Option String :=
  let t := trimChars text.data
  SUBJECTS.find? fun s => t.map Char.toLower == lowerChars s

/-- `startsWithB q l`: the character list `q` begins the character list `l`. -/
def startsWithB : List Char → List Char → Bool
  | [], _ => true
  | _ :: _, [] => false
  | a :: as, b :: bs => a == b && startsWithB as bs

/-- `containsSeqB q l`: the character list `q` occurs contiguously in `l`. -/
def containsSeqB (q : List Char) : List Char → Bool
  | [] => startsWithB q []
  | c :: t => startsWithB q (c :: t) || containsSeqB q t

/-- Case-insensitive substring test.  This is the *spec's* notion of a
search match ("substring match (case-insensitive)", spec section 4.3); it is
used to state claims, not to model the source, whose `LIKE` additionally
gives `%` and `_` wildcard meaning (see `likeMatch`). -/
def ci_substr (q s : String) : Bool := containsSeqB (lowerChars q) (lowerChars s)

/-- SQLite `LIKE` pattern matching (ASCII case folding, no ESCAPE clause):
`%` matches any sequence of characters (pattern `'%' :: ps` matches `s`
exactly when `ps` matches some suffix of `s`), `_` matches exactly one
character, and any other pattern character matches case-insensitively. -/
def likeMatch : List Char → List Char → Bool
  | [], s => s.isEmpty
  | '%' :: ps, s => s.tails.any (likeMatch ps)
  | '_' :: ps, s =>
    match s with
    | [] => false
    | _ :: t => likeMatch ps t
  | p :: ps, s =>
    match s with
    | [] => false
    | c :: t => (Char.toLower p == Char.toLower c) && likeMatch ps t

/-- `field LIKE ?` with the pattern `f"%{q}%"` built by `search_files`:
the query is interpolated unescaped, so `%` and `_` inside `q` keep their
wildcard meaning.  A `NULL` field matches nothing. -/
def likeContains (q : String) : Option String → Bool
  | none => false
  | some s => likeMatch ('%' :: (q.data ++ ['%'])) s.data

/-- SQL `COALESCE(new, old)`. -/
def coalesce {α : Type} (a b : Option α) : Option α :=
  match a with
  | some x => some x
  | none => b

/-- `get_file_by_unique`: `SELECT * FROM files WHERE user_id=? AND
tg_unique_id=? LIMIT 1`, guarded by `if not tg_unique_id: return None`. -/
def get_file_by_unique (uid : Nat) (tg_unique_id : Option String)
    (rows : List FileRow) : Option FileRow :=
  match tg_unique_id with
  | none => none
  | some u => rows.find? fun r => r.user_id == uid && r.tg_unique_id == some u

/-- `get_file_by_hash`: `SELECT * FROM files WHERE user_id=? AND
content_hash=? LIMIT 1`, guarded by `if not content_hash: return None`.
Note: no `is_deleted` filter — trashed rows are found too. -/
def get_file_by_hash (uid : Nat) (content_hash : Option String)
    (rows : List FileRow) : Option FileRow :=
  match content_hash with
  | none => none
  | some h => rows.find? fun r => r.user_id == uid && r.content_hash == some h

/-- The UNIQUE indexes created by `init_db`:
`idx_files_user_unique ON files(user_id, tg_unique_id)` and
`idx_files_user_hash ON files(user_id, content_hash)`.  They cover every row
(active or soft-deleted); SQLite treats `NULL` as distinct in a UNIQUE
index, so only non-null values conflict. -/
def hasConflict (uid : Nat) (tg_unique_id content_hash : Option String)
    (rows : List FileRow) : Bool :=
  rows.any fun r => r.user_id == uid &&
    ((tg_unique_id.isSome && r.tg_unique_id == tg_unique_id) ||
     (content_hash.isSome && r.content_hash == content_hash))

/-- `add_file_row`: INSERT of a fresh row (`is_fav=0`, `is_deleted=0`,
`added_at=now`); `Except.error` models the `sqlite3.IntegrityError` raised
when a UNIQUE index rejects the row. -/
def add_file_row (uid : Nat) (subject file_type tg_file_id : String)
    (tg_unique_id : Option String) (filename caption local_path : Option String)
    (file_size : Option Nat) (content_hash : Option String) (now : Int)
    (st : BotState) : Except Unit (Nat × BotState) :=
  if hasConflict uid tg_unique_id content_hash st.rows then
    .error ()
  else
    .ok (st.nextId,
      { st with
        rows := st.rows ++
          [{ id := st.nextId, user_id := uid, subject := subject,
             file_type := file_type, tg_file_id := tg_file_id,
             tg_unique_id := tg_unique_id, filename := filename,
             caption := caption, local_path := local_path,
             file_size := file_size, content_hash := content_hash,
             added_at := now, is_fav := false, is_deleted := false,
             deleted_at := none }],
        nextId := st.nextId + 1 })

/-- `update_existing_file_from_duplicate`: UPDATE of the matched row with
COALESCE-refreshed metadata, `is_deleted=0`, `deleted_at=NULL`. -/
def update_existing_file_from_duplicate (uid existing_id : Nat)
    (tg_file_id : String) (filename caption local_path : Option String)
    (file_size : Option Nat) (content_hash : Option String)
    (rows : List FileRow) : List FileRow :=
  rows.map fun r =>
    if r.user_id == uid && r.id == existing_id then
      { r with
        tg_file_id := tg_file_id,
        filename := coalesce filename r.filename,
        caption := coalesce caption r.caption,
        local_path := coalesce local_path r.local_path,
        file_size := coalesce file_size r.file_size,
        content_hash := coalesce content_hash r.content_hash,
        is_deleted := false,
        deleted_at := none }
    else r

/-- The active rows of one owner: `WHERE user_id=? AND is_deleted=0`. -/
def activeRows (uid : Nat) (rows : List FileRow) : List FileRow :=
  rows.filter fun r => r.user_id == uid && !r.is_deleted

/-- `ORDER BY id DESC` comparison. -/
def recentLE (a b : FileRow) : Prop := b.id ≤ a.id

instance : DecidableRel recentLE := fun a b => Nat.decLe b.id a.id

instance : IsTotal FileRow recentLE := ⟨fun a b => Nat.le_total b.id a.id⟩

instance : IsTrans FileRow recentLE :=
  ⟨fun _ _ _ hab hbc => Nat.le_trans hbc hab⟩

/-- `count_by_subject`: `SELECT subject, COUNT(*) FROM files WHERE user_id=?
AND is_deleted=0 GROUP BY subject`. -/
def count_by_subject (uid : Nat) (rows : List FileRow) : List (String × Nat) :=
  let act := activeRows uid rows
  ((act.map fun r => r.subject).dedup).map fun s =>
    (s, (act.filter fun r => r.subject == s).length)

/-- `list_files_by_subject`: active rows of one subject, `ORDER BY id DESC
LIMIT ?` (the source projects a fixed column list; whole rows are returned
here). -/
def list_files_by_subject (uid : Nat) (subject : String) (limit : Nat)
    (rows : List FileRow) : List FileRow :=
  (List.insertionSort recentLE (rows.filter fun r =>
      r.user_id == uid && r.subject == subject && !r.is_deleted)).take limit

/-- The WHERE clause of `search_files`: an active row of the owner whose
`filename` or `caption` matches `LIKE '%q%'` — with `%`/`_` in `q` acting
as wildcards (the `subject` column is not searched). -/
def search_pred (uid : Nat) (q : String) (r : FileRow) : Bool :=
  r.user_id == uid && !r.is_deleted &&
    (likeContains q r.filename || likeContains q r.caption)

/-- `search_files`: active rows with `filename LIKE '%q%' OR caption LIKE
'%q%'`, `ORDER BY id DESC LIMIT ?` (default limit 30 in the source). -/
def search_files (uid : Nat) (q : String) (limit : Nat)
    (rows : List FileRow) : List FileRow :=
  (List.insertionSort recentLE (rows.filter (search_pred uid q))).take limit

/-- `soft_delete_file`: `UPDATE files SET is_deleted=1, deleted_at=now WHERE
user_id=? AND id=?` (unconditional — it also overwrites `deleted_at` of a
row that is already trashed). -/
def soft_delete_file (now : Int) (uid fid : Nat)
    (rows : List FileRow) : List FileRow :=
  rows.map fun r =>
    if r.user_id == uid && r.id == fid then
      { r with is_deleted := true, deleted_at := some now }
    else r

/-- `restore_file`: `UPDATE files SET is_deleted=0, deleted_at=NULL WHERE
user_id=? AND id=?`. -/
def restore_file (uid fid : Nat) (rows : List FileRow) : List FileRow :=
  rows.map fun r =>
    if r.user_id == uid && r.id == fid then
      { r with is_deleted := false, deleted_at := none }
    else r

/-- `purge_trash`: `DELETE FROM files WHERE user_id=? AND is_deleted=1 AND
deleted_at < cutoff` with `cutoff = utcnow - timedelta(days=retention_days)`
(`TRASH_RETENTION_DAYS` is the env-configured retention).  A `NULL`
`deleted_at` never satisfies the strict comparison. -/
def purge_trash (now retention_days : Int) (uid : Nat)
    (rows : List FileRow) : List FileRow :=
  rows.filter fun r =>
    !(r.user_id == uid && r.is_deleted &&
      (match r.deleted_at with
       | some d => decide (d < now - retention_days * 86400)
       | none => false))

/-- `purge_trash` as a state transition: it issues only the row DELETE and
performs no filesystem operation. -/
def purge_trash_state (now retention_days : Int) (uid : Nat)
    (st : BotState) : BotState :=
  { st with rows := purge_trash now retention_days uid st.rows }

/-- `hard_delete_file`: look up `local_path`, best-effort `unlink` of the
payload copy (`unlinkOk` models whether the unlink succeeded; either way
execution continues), then `DELETE FROM files WHERE user_id=? AND id=?`. -/
def hard_delete_file (uid fid : Nat) (unlinkOk : Bool)
    (st : BotState) : BotState :=
  let fsAfter :=
    match st.rows.find? fun r => r.user_id == uid && r.id == fid with
    | some r =>
      match r.local_path with
      | some p => if unlinkOk then st.fs.erase p else st.fs
      | none => st.fs
    | none => st.fs
  { rows := st.rows.filter fun r => !(r.user_id == uid && r.id == fid),
    nextId := st.nextId,
    fs := fsAfter }

/-- `list_trash`: trashed rows, `ORDER BY id DESC LIMIT ?`. -/
def list_trash (uid : Nat) (limit : Nat) (rows : List FileRow) : List FileRow :=
  (List.insertionSort recentLE
    (rows.filter fun r => r.user_id == uid && r.is_deleted)).take limit

/-- `get_fixed_subject`: read the sticky binding; it resolves when the
stored subject is non-empty (Python truthiness) and `now <= fixed_until`
(missing `fixed_until` defaults to 0); otherwise both keys are popped and
`None` is returned.  A successful read leaves the binding in place. -/
def get_fixed_subject (now : Int) (ud : UserData) : Option String × UserData :=
  match ud.fixed_subject with
  | some subj =>
    if subj ≠ "" ∧ now ≤ ud.fixed_until.getD 0 then (some subj, ud)
    else (none, UserData.empty)
  | none => (none, UserData.empty)

/-- The subject-declaration branch of `handle_text`: store the subject and
`fixed_until = now + 10 * 60`. -/
def declare_subject (now : Int) (subj : String) (ud : UserData) : UserData :=
  { ud with fixed_subject := some subj, fixed_until := some (now + 10 * 60) }

/-- Final stage of `handle_file`: `add_file_row`, with the
`sqlite3.IntegrityError` handler that unlinks the downloaded copy. -/
def handle_file_insert (uid : Nat) (now : Int) (subj : String)
    (sub : Submission) (localPath : String) (ud1 : UserData)
    (st1 : BotState) : HandleResult × UserData × BotState :=
  match add_file_row uid subj sub.file_type sub.tg_file_id sub.tg_unique_id
      (some sub.safe_name) sub.caption (some localPath) sub.file_size
      sub.content_hash now st1 with
  | .error _ => (.integrityError, ud1, { st1 with fs := st1.fs.erase localPath })
  | .ok (nid, st2) => (.added nid, ud1, st2)

/-- Stage of `handle_file` after the hash dedup: if the unique id matches a
trashed row, restore it through `update_existing_file_from_duplicate`;
otherwise fall through to the INSERT. -/
def handle_file_restoreOrInsert (uid : Nat) (now : Int) (subj : String)
    (sub : Submission) (localPath : String) (ud1 : UserData)
    (st1 : BotState) : HandleResult × UserData × BotState :=
  match get_file_by_unique uid sub.tg_unique_id st1.rows with
  | some ex =>
    if ex.is_deleted then
      (.restoredFromTrash ex.id, ud1,
        { st1 with
          rows := update_existing_file_from_duplicate uid ex.id sub.tg_file_id
            (some sub.safe_name) sub.caption (some localPath) sub.file_size
            sub.content_hash st1.rows })
    else handle_file_insert uid now subj sub localPath ud1 st1
  | none => handle_file_insert uid now subj sub localPath ud1 st1

/-- Stage of `handle_file` after a successful download of the payload to
`localPath`: the SHA-256 dedup.  A hash match — trashed or not — replies
"duplicate", unlinks the fresh copy and stops, touching no row. -/
def handle_file_afterDownload (uid : Nat) (now : Int) (subj : String)
    (sub : Submission) (localPath : String) (ud1 : UserData)
    (st : BotState) : HandleResult × UserData × BotState :=
  let st1 : BotState := { st with fs := localPath :: st.fs }
  match get_file_by_hash uid sub.content_hash st1.rows with
  | some ex =>
    (.duplicateHash ex.id ex.subject, ud1, { st1 with fs := st1.fs.erase localPath })
  | none => handle_file_restoreOrInsert uid now subj sub localPath ud1 st1

/-- The `handle_file` pipeline (admin submission of a supported kind whose
download succeeds): sticky-subject resolution, then the Telegram-unique-id
pre-check (an *active* match stops before download), then download, hash
dedup, restore-or-insert. -/
def handle_file (uid : Nat) (now : Int) (sub : Submission)
    (localPath : String) (ud : UserData)
    (st : BotState) : HandleResult × UserData × BotState :=
  match get_fixed_subject now ud with
  | (none, ud1) => (.noSubject, ud1, st)
  | (some subj, ud1) =>
    match get_file_by_unique uid sub.tg_unique_id st.rows with
    | some ex =>
      if ex.is_deleted = false then (.duplicateUnique ex.id, ud1, st)
      else handle_file_afterDownload uid now subj sub localPath ud1 st
    | none => handle_file_afterDownload uid now subj sub localPath ud1 st

/-! ## Shared helper lemmas -/

/-- Every configured category name is nonempty (so the Python truthiness
check on the stored sticky subject passes for any configured subject). -/
theorem subjects_nonempty : ∀ s ∈ SUBJECTS, s ≠ "" := by decide

/-- Rows produced by `update_existing_file_from_duplicate` that carry the
targeted `(user_id, id)` are active with `deleted_at` cleared. -/
theorem update_existing_mem_cleared (uid exId : Nat) (tg : String)
    (fn cp lp : Option String) (fsz : Option Nat) (ch : Option String)
    (rows : List FileRow) (r : FileRow)
    (hr : r ∈ update_existing_file_from_duplicate uid exId tg fn cp lp fsz ch rows)
    (hu : r.user_id = uid) (hi : r.id = exId) :
    r.is_deleted = false ∧ r.deleted_at = none := by
  unfold update_existing_file_from_duplicate at hr
  rcases List.mem_map.1 hr with ⟨r0, hr0, rfl⟩
  by_cases hc : r0.user_id = uid ∧ r0.id = exId
  · simp [hc]
  · simp [hc] at hu hi ⊢
    exact absurd ⟨hu, hi⟩ hc

/-- `soft_delete_file` commutes into absorption: a second soft delete of the
same row overwrites the first one entirely. -/
theorem soft_delete_absorb (now now2 : Int) (uid fid : Nat)
    (rows : List FileRow) :
    soft_delete_file now uid fid (soft_delete_file now2 uid fid rows) =
      soft_delete_file now uid fid rows := by
  unfold soft_delete_file
  rw [List.map_map]
  apply List.map_congr_left
  intro r _
  simp only [Function.comp_apply]
  by_cases hc : r.user_id = uid ∧ r.id = fid
  · simp [hc]
  · simp [hc]

/-! ## C4 — sticky binding TTL -/

/-- C4: a sticky binding declared at `t0` (TTL `10 * 60` seconds) resolves
at every `t ≤ t0 + 600` — in particular at `t0 + 599` (9 min 59 s) — and
falls through (returns `none`) at every `t > t0 + 600` — in particular at
`t0 + 601`.  Expiry is a lazy comparison of the stored expiry timestamp
with the current time, and a successful resolution leaves the binding in
place, so repeated resolutions within the window all succeed. -/
theorem C4_ttl_binding (t0 t : Int) (subj : String) (ud : UserData)
    (hs : subj ∈ SUBJECTS) :
    (t ≤ t0 + 600 →
      get_fixed_subject t (declare_subject t0 subj ud) =
        (some subj, declare_subject t0 subj ud)) ∧
    (t0 + 600 < t →
      (get_fixed_subject t (declare_subject t0 subj ud)).1 = none) ∧
    (t ≤ t0 + 600 →
      get_fixed_subject t
          ((get_fixed_subject t (declare_subject t0 subj ud)).2) =
        (some subj, declare_subject t0 subj ud)) := by
  have hne : subj ≠ "" := subjects_nonempty subj hs
  refine ⟨fun h => ?_, fun h => ?_, fun h => ?_⟩
  · simp [get_fixed_subject, declare_subject, hne, h]
  · simp [get_fixed_subject, declare_subject, hne, not_le.2 h]
  · simp [get_fixed_subject, declare_subject, hne, h]

/-- Witness for C4 at `t0 = 0`: resolution succeeds at `t = 599` and fails
at `t = 601`. -/
theorem C4_ttl_binding_witness :
    "Drama" ∈ SUBJECTS ∧
    get_fixed_subject 599 (declare_subject 0 "Drama" UserData.empty) =
      (some "Drama", declare_subject 0 "Drama" UserData.empty) ∧
    (get_fixed_subject 601 (declare_subject 0 "Drama" UserData.empty)).1 = none :=
  ⟨by decide,
   (C4_ttl_binding 0 599 "Drama" UserData.empty (by decide)).1 (by decide),
   (C4_ttl_binding 0 601 "Drama" UserData.empty (by decide)).2.1 (by decide)⟩

/-! ## C5 — soft delete of an already-trashed record -/

/-- A trashed row used to refute C5 as stated. -/
def c5_row : FileRow :=
  { id := 1, user_id := 7, subject := "Poetry", file_type := "document",
    tg_file_id := "f1", tg_unique_id := some "u1", filename := some "a.pdf",
    caption := none, local_path := none, file_size := some 10,
    content_hash := some "h1", added_at := 0, is_fav := false,
    is_deleted := true, deleted_at := some 100 }

/-- C5 counterexample: soft-deleting the already-trashed `c5_row`
(`deleted_at = 100`) again at time 200 is not a no-op — it overwrites
`deleted_at` with 200, contradicting the claim that the timestamp is
unchanged. -/
theorem C5_counterexample :
    c5_row.is_deleted = true ∧ c5_row.deleted_at = some 100 ∧
    ((soft_delete_file 200 7 1 [c5_row]).map fun r => r.deleted_at) =
      [some 200] := by decide

/-- C5 (amended): soft-deleting an already-trashed record is not an error
and leaves it trashed, but it resets `deleted_at` to the current time: a
repeated soft delete is absorbed by the last one, and every affected row
ends with `is_deleted = true` and `deleted_at = some now`. -/
theorem C5_amended_thm :
    (∀ (now now2 : Int) (uid fid : Nat) (rows : List FileRow),
      soft_delete_file now uid fid (soft_delete_file now2 uid fid rows) =
        soft_delete_file now uid fid rows) ∧
    (∀ (now : Int) (uid fid : Nat) (rows : List FileRow) (r : FileRow),
      r ∈ soft_delete_file now uid fid rows → r.user_id = uid → r.id = fid →
      r.is_deleted = true ∧ r.deleted_at = some now) := by
  constructor
  · exact soft_delete_absorb
  · intro now uid fid rows r hr hu hi
    unfold soft_delete_file at hr
    rcases List.mem_map.1 hr with ⟨r0, hr0, rfl⟩
    by_cases hc : r0.user_id = uid ∧ r0.id = fid
    · simp [hc]
    · simp [hc] at hu hi ⊢
      exact absurd ⟨hu, hi⟩ hc

/-- Witness for C5 (amended): double soft delete of `c5_row`'s table at
times 150 then 200 equals the single soft delete at 200, and the affected
row is trashed with `deleted_at = 200`. -/
theorem C5_amended_thm_witness :
    soft_delete_file 200 7 1 (soft_delete_file 150 7 1 [c5_row]) =
      soft_delete_file 200 7 1 [c5_row] ∧
    ((soft_delete_file 200 7 1 [c5_row]).head?.getD c5_row).is_deleted = true :=
  ⟨C5_amended_thm.1 200 150 7 1 [c5_row],
   (C5_amended_thm.2 200 7 1 [c5_row]
      (((soft_delete_file 200 7 1 [c5_row]).head?.getD c5_row))
      (by decide) (by decide) (by decide)).1⟩

/-! ## C6 — retention boundary of `purge_trash` -/

/-- A trashed row sitting exactly on the retention boundary. -/
def c6_row : FileRow :=
  { id := 1, user_id := 7, subject := "Poetry", file_type := "document",
    tg_file_id := "f1", tg_unique_id := some "u1", filename := some "a.pdf",
    caption := none, local_path := none, file_size := some 10,
    content_hash := some "h1", added_at := 0, is_fav := false,
    is_deleted := true, deleted_at := some 0 }

/-- C6 counterexample: with a 30-day retention, a record soft-deleted at
time 0 is still kept by `purge_trash` run at exactly `now - T =
30 * 86400` (the strict `deleted_at < cutoff` comparison spares the
boundary), contradicting the claim that it is removed once
`now - T >= retention_days`. -/
theorem C6_counterexample :
    (2592000 : Int) = 30 * 86400 ∧
    purge_trash 2592000 30 7 [c6_row] = [c6_row] := by decide

/-- C6 (amended): a record soft-deleted at time `T` is untouched by
`purge_trash` while `now - T ≤ retention_days` (boundary included) and is
removed once `now - T > retention_days` (strictly). -/
theorem C6_amended_thm (now retention_days : Int) (uid : Nat)
    (rows : List FileRow) (r : FileRow) (T : Int)
    (hmem : r ∈ rows) (hu : r.user_id = uid) (hd : r.is_deleted = true)
    (hT : r.deleted_at = some T) :
    (now - T ≤ retention_days * 86400 →
      r ∈ purge_trash now retention_days uid rows) ∧
    (retention_days * 86400 < now - T →
      r ∉ purge_trash now retention_days uid rows) := by
  constructor
  · intro hle
    refine List.mem_filter.2 ⟨hmem, ?_⟩
    simp [hu, hd, hT]
    omega
  · intro hlt hin
    have := (List.mem_filter.1 hin).2
    simp [hu, hd, hT] at this
    omega

/-- Witness for C6 (amended): `c6_row` (`deleted_at = 0`) is kept at
`now = 30 * 86400` and removed at `now = 30 * 86400 + 1`. -/
theorem C6_amended_thm_witness :
    c6_row ∈ purge_trash 2592000 30 7 [c6_row] ∧
    c6_row ∉ purge_trash 2592001 30 7 [c6_row] :=
  ⟨(C6_amended_thm 2592000 30 7 [c6_row] c6_row 0 (by decide) rfl rfl rfl).1
      (by decide),
   (C6_amended_thm 2592001 30 7 [c6_row] c6_row 0 (by decide) rfl rfl rfl).2
      (by decide)⟩

/-! ## C7 — purge and retained payload copies -/

/-- An expired trashed row with a retained local payload copy. -/
def c7_row : FileRow :=
  { id := 1, user_id := 7, subject := "Poetry", file_type := "document",
    tg_file_id := "f1", tg_unique_id := some "u1", filename := some "x.pdf",
    caption := none, local_path := some "/data/files/Poetry/x.pdf",
    file_size := some 10, content_hash := some "h1", added_at := 0,
    is_fav := false, is_deleted := true, deleted_at := some 0 }

/-- C7 state: the row's payload copy is present on disk. -/
def c7_st : BotState := ⟨[c7_row], 2, ["/data/files/Poetry/x.pdf"]⟩

/-- C7 counterexample: running the purge past `c7_row`'s retention horizon
deletes the row but leaves its retained local payload copy on disk —
`purge_trash` performs no filesystem release, contradicting the claim. -/
theorem C7_counterexample :
    (purge_trash_state 2592001 30 7 c7_st).rows = [] ∧
    (purge_trash_state 2592001 30 7 c7_st).fs =
      ["/data/files/Poetry/x.pdf"] := by decide

/-- C7 (amended): the retention purge deletes only rows and never releases
a retained payload copy (the filesystem is untouched); payload copies are
released only by the separate per-file `hard_delete_file`, where a failed
unlink does not abort the row deletion (the deleted rows are the same
whether the unlink succeeds or fails). -/
theorem C7_amended_thm :
    (∀ (now retention_days : Int) (uid : Nat) (st : BotState),
      (purge_trash_state now retention_days uid st).fs = st.fs) ∧
    (∀ (uid fid : Nat) (ok : Bool) (st : BotState),
      (hard_delete_file uid fid ok st).rows =
        st.rows.filter fun r => !(r.user_id == uid && r.id == fid)) := by
  exact ⟨fun _ _ _ _ => rfl, fun _ _ _ _ => rfl⟩

/-! ## C10 — storage-layer uniqueness of `(owner_id, content_hash)` -/

/-- C10: the UNIQUE index `idx_files_user_hash` covers every row, active or
soft-deleted: an INSERT through `add_file_row` whose `(user_id,
content_hash)` pair already occurs in the table — regardless of the
existing row's `is_deleted` state — raises `sqlite3.IntegrityError`
(modelled as `Except.error`). -/
theorem C10_hash_unique (uid : Nat) (subject file_type tg_file_id : String)
    (tgu fn cp lp : Option String) (fsz : Option Nat) (h : String)
    (now : Int) (st : BotState) (r : FileRow)
    (hmem : r ∈ st.rows) (hu : r.user_id = uid)
    (hh : r.content_hash = some h) :
    add_file_row uid subject file_type tg_file_id tgu fn cp lp fsz
      (some h) now st = .error () := by
  unfold add_file_row
  have hc : hasConflict uid tgu (some h) st.rows = true := by
    unfold hasConflict
    refine List.any_eq_true.2 ⟨r, hmem, ?_⟩
    simp [hu, hh]
  rw [if_pos hc]

/-- c10: a soft-deleted row holding hash `h1`. -/
def c10_row : FileRow :=
  { id := 1, user_id := 7, subject := "Poetry", file_type := "document",
    tg_file_id := "f1", tg_unique_id := some "u1", filename := some "a.pdf",
    caption := none, local_path := none, file_size := some 10,
    content_hash := some "h1", added_at := 0, is_fav := false,
    is_deleted := true, deleted_at := some 5 }

/-- c10: a table containing only the trashed `c10_row`. -/
def c10_st : BotState := ⟨[c10_row], 2, []⟩

/-- Witness for C10: inserting a fresh row with the same hash `h1` as the
soft-deleted `c10_row` is rejected by the constraint. -/
theorem C10_hash_unique_witness :
    c10_row ∈ c10_st.rows ∧ c10_row.is_deleted = true ∧
    add_file_row 7 "Drama" "document" "f2" (some "u9") (some "b.pdf") none
      none none (some "h1") 50 c10_st = .error () :=
  ⟨by decide, rfl,
   C10_hash_unique 7 "Drama" "document" "f2" (some "u9") (some "b.pdf") none
     none none "h1" 50 c10_st c10_row (by decide) rfl rfl⟩

/-! ## C8 — soft-deleted records are excluded from read views -/

/-- Pre-discarding the soft-deleted rows does not change the active rows:
the `is_deleted=0` conjunct of the WHERE clause makes trashed rows
invisible. -/
theorem activeRows_filter_not_deleted (uid : Nat) (rows : List FileRow) :
    activeRows uid (rows.filter fun r => !r.is_deleted) = activeRows uid rows := by
  unfold activeRows
  induction rows with
  | nil => rfl
  | cons r t ih =>
    by_cases hd : r.is_deleted
    · simp [List.filter_cons, hd, ih]
    · simp [List.filter_cons, hd, ih]

/-- C8: soft-deleted records never appear in the results of
`list_files_by_subject` or `search_files`, and `count_by_subject` is
unchanged if the soft-deleted rows are discarded beforehand (they
contribute to no count). -/
theorem C8_listing_exclusion :
    (∀ (uid : Nat) (subject : String) (limit : Nat) (rows : List FileRow)
       (r : FileRow), r ∈ list_files_by_subject uid subject limit rows →
       r.is_deleted = false) ∧
    (∀ (uid : Nat) (rows : List FileRow),
       count_by_subject uid (rows.filter fun r => !r.is_deleted) =
         count_by_subject uid rows) ∧
    (∀ (uid : Nat) (q : String) (limit : Nat) (rows : List FileRow)
       (r : FileRow), r ∈ search_files uid q limit rows →
       r.is_deleted = false) := by
  refine ⟨?_, ?_, ?_⟩
  · intro uid subject limit rows r hr
    unfold list_files_by_subject at hr
    have hmem := (List.mem_insertionSort recentLE).1 (List.mem_of_mem_take hr)
    have hcond := (List.mem_filter.1 hmem).2
    simp only [Bool.and_eq_true, Bool.not_eq_true'] at hcond
    exact hcond.2
  · intro uid rows
    unfold count_by_subject
    rw [activeRows_filter_not_deleted]
  · intro uid q limit rows r hr
    unfold search_files at hr
    have hmem := (List.mem_insertionSort recentLE).1 (List.mem_of_mem_take hr)
    have hcond := (List.mem_filter.1 hmem).2
    simp only [search_pred, Bool.and_eq_true, Bool.not_eq_true'] at hcond
    exact hcond.1.2

/-- c8: an active row used to instantiate the exclusion theorem. -/
def c8_row : FileRow :=
  { id := 1, user_id := 7, subject := "Poetry", file_type := "document",
    tg_file_id := "f1", tg_unique_id := some "u1",
    filename := some "syllabus", caption := none, local_path := none,
    file_size := some 10, content_hash := some "h1", added_at := 0,
    is_fav := false, is_deleted := false, deleted_at := none }

/-- Witness for C8: `c8_row` is listed under its subject and found by
search, and is active; the count view ignores a pre-filter of the trash. -/
theorem C8_listing_exclusion_witness :
    c8_row ∈ list_files_by_subject 7 "Poetry" 50 [c8_row] ∧
    c8_row.is_deleted = false ∧
    c8_row ∈ search_files 7 "syl" 30 [c8_row] ∧
    count_by_subject 7 ([c8_row].filter fun r => !r.is_deleted) =
      count_by_subject 7 [c8_row] :=
  ⟨by decide,
   C8_listing_exclusion.1 7 "Poetry" 50 [c8_row] c8_row (by decide),
   by decide,
   C8_listing_exclusion.2.1 7 [c8_row]⟩

/-! ## C1 — hash match against a trashed record -/

/-- A soft-deleted record holding content hash `h1`. -/
def c1_row : FileRow :=
  { id := 1, user_id := 7, subject := "Poetry", file_type := "document",
    tg_file_id := "f1", tg_unique_id := some "u1", filename := some "a.pdf",
    caption := none, local_path := none, file_size := some 10,
    content_hash := some "h1", added_at := 0, is_fav := false,
    is_deleted := true, deleted_at := some 50 }

/-- A re-upload of the same bytes (same SHA-256 `h1`) under a fresh
Telegram unique id, as a different transport instance would produce. -/
def c1_sub : Submission :=
  { file_type := "document", tg_file_id := "f2", tg_unique_id := some "u2",
    safe_name := "a.pdf", caption := none, file_size := some 10,
    content_hash := some "h1" }

/-- A session with a live sticky binding to `Poetry`. -/
def c1_ud : UserData := ⟨some "Poetry", some 1000⟩

/-- A library containing only the trashed `c1_row`. -/
def c1_st : BotState := ⟨[c1_row], 2, []⟩

/-- C1 counterexample: resubmitting content whose SHA-256 equals the
trashed `c1_row`'s `content_hash` does not restore it — `handle_file`
replies "duplicate (SHA-256)" and returns with the table unchanged, so the
record stays trashed (`deleted_at` is not cleared). -/
theorem C1_counterexample :
    c1_row.is_deleted = true ∧ c1_sub.content_hash = c1_row.content_hash ∧
    handle_file 7 100 c1_sub "p" c1_ud c1_st =
      (.duplicateHash 1 "Poetry", c1_ud, c1_st) ∧
    ((handle_file 7 100 c1_sub "p" c1_ud c1_st).2.2.rows.all fun r =>
      r.is_deleted) = true := by decide

/-- C1 (amended): a content-hash match — against an active *or trashed*
record — makes `handle_file` reply "duplicate" and leave every row
unchanged (a trashed match is *not* restored); restore-on-reupload happens
only when the hash lookup finds nothing and the Telegram unique id matches
a trashed record, which is then restored in place (same id, `is_deleted`
cleared and `deleted_at` set to NULL). -/
theorem C1_amended_thm :
    (∀ (uid : Nat) (now : Int) (sub : Submission) (localPath : String)
       (ud ud1 : UserData) (subj : String) (st : BotState) (ex : FileRow),
       get_fixed_subject now ud = (some subj, ud1) →
       (get_file_by_unique uid sub.tg_unique_id st.rows).all
         (fun r => r.is_deleted) = true →
       get_file_by_hash uid sub.content_hash st.rows = some ex →
       ∃ st2 : BotState,
         handle_file uid now sub localPath ud st =
           (.duplicateHash ex.id ex.subject, ud1, st2) ∧
         st2.rows = st.rows) ∧
    (∀ (uid : Nat) (now : Int) (sub : Submission) (localPath : String)
       (ud ud1 : UserData) (subj : String) (st : BotState) (ex : FileRow),
       get_fixed_subject now ud = (some subj, ud1) →
       get_file_by_hash uid sub.content_hash st.rows = none →
       get_file_by_unique uid sub.tg_unique_id st.rows = some ex →
       ex.is_deleted = true →
       ∃ st2 : BotState,
         handle_file uid now sub localPath ud st =
           (.restoredFromTrash ex.id, ud1, st2) ∧
         (∀ r, r ∈ st2.rows → r.user_id = uid → r.id = ex.id →
           r.is_deleted = false ∧ r.deleted_at = none)) := by
  constructor
  · intro uid now sub localPath ud ud1 subj st ex h1 hall hh
    cases hq : get_file_by_unique uid sub.tg_unique_id st.rows with
    | none =>
      refine ⟨⟨st.rows, st.nextId, (localPath :: st.fs).erase localPath⟩,
        ?_, rfl⟩
      simp [handle_file, h1, hq, handle_file_afterDownload, hh]
    | some ex2 =>
      rw [hq] at hall
      simp only [Option.all] at hall
      refine ⟨⟨st.rows, st.nextId, (localPath :: st.fs).erase localPath⟩,
        ?_, rfl⟩
      simp [handle_file, h1, hq, hall, handle_file_afterDownload, hh]
  · intro uid now sub localPath ud ud1 subj st ex h1 hh hq hdel
    refine ⟨⟨update_existing_file_from_duplicate uid ex.id sub.tg_file_id
        (some sub.safe_name) sub.caption (some localPath) sub.file_size
        sub.content_hash st.rows, st.nextId, localPath :: st.fs⟩, ?_, ?_⟩
    · simp [handle_file, h1, hq, hdel, handle_file_afterDownload, hh,
        handle_file_restoreOrInsert]
    · intro r hr hru hri
      exact update_existing_mem_cleared uid ex.id sub.tg_file_id _ _ _ _ _ _
        r hr hru hri

/-- c1 restore scenario: the trashed record lacks a stored hash, so the
hash lookup misses and the unique-id path restores it. -/
def c1_rowNoHash : FileRow :=
  { id := 1, user_id := 7, subject := "Poetry", file_type := "document",
    tg_file_id := "f1", tg_unique_id := some "u1", filename := some "a.pdf",
    caption := none, local_path := none, file_size := some 10,
    content_hash := none, added_at := 0, is_fav := false,
    is_deleted := true, deleted_at := some 50 }

/-- c1 restore scenario: a re-upload carrying the same Telegram unique id. -/
def c1_subSameUnique : Submission :=
  { file_type := "document", tg_file_id := "f2", tg_unique_id := some "u1",
    safe_name := "a.pdf", caption := none, file_size := some 10,
    content_hash := some "h1" }

/-- Witness for C1 (amended): the hash-match branch at `c1_st` leaves the
rows unchanged, and the unique-id branch at the hashless trashed record
reports a restore. -/
theorem C1_amended_thm_witness :
    (∃ st2 : BotState,
      handle_file 7 100 c1_sub "p" c1_ud c1_st =
        (.duplicateHash 1 "Poetry", c1_ud, st2) ∧ st2.rows = c1_st.rows) ∧
    (∃ st2 : BotState,
      handle_file 7 100 c1_subSameUnique "p" c1_ud ⟨[c1_rowNoHash], 2, []⟩ =
        (.restoredFromTrash 1, c1_ud, st2) ∧
      (∀ r, r ∈ st2.rows → r.user_id = 7 → r.id = 1 →
        r.is_deleted = false ∧ r.deleted_at = none)) := by
  constructor
  · have := C1_amended_thm.1 7 100 c1_sub "p" c1_ud c1_ud "Poetry" c1_st
      c1_row (by decide) (by decide) (by decide)
    exact this
  · have := C1_amended_thm.2 7 100 c1_subSameUnique "p" c1_ud c1_ud "Poetry"
      ⟨[c1_rowNoHash], 2, []⟩ c1_rowNoHash (by decide) (by decide)
      (by decide) (by decide)
    exact this

/-! ## C2 — no explicit hint parsing from the note -/

/-- A submission whose caption follows the `Category - note` convention the
spec describes. -/
def c2_sub : Submission :=
  { file_type := "document", tg_file_id := "f1", tg_unique_id := some "u1",
    safe_name := "a.pdf", caption := some "Linguistics - lecture 1",
    file_size := some 10, content_hash := some "h2" }

/-- A session stickily bound to `Drama`. -/
def c2_ud : UserData := ⟨some "Drama", some 1000⟩

/-- An empty library. -/
def c2_st : BotState := ⟨[], 1, []⟩

/-- C2 counterexample: `normalize_subject` does not split at `-`, `:` or
`|` (the full caption fails to match any category), and `handle_file`
never parses the caption: the item is classified by the sticky binding
(`Drama`, not the claimed `Linguistics`) and the caption is stored
verbatim (not trimmed to `lecture 1`). -/
theorem C2_counterexample :
    normalize_subject "Linguistics - lecture 1" = none ∧
    normalize_subject "linguistics" = some "Linguistics" ∧
    (handle_file 7 100 c2_sub "p" c2_ud c2_st).1 = .added 1 ∧
    ((handle_file 7 100 c2_sub "p" c2_ud c2_st).2.2.rows.map fun r =>
      (r.subject, r.caption)) =
      [("Drama", some "Linguistics - lecture 1")] := by decide

/-- C2 (amended): the free-text note is never parsed for a category hint —
an accepted submission is classified by the sticky session binding alone
and its note (caption) is stored verbatim; `normalize_subject` (used only
when a plain text message declares the binding) matches the whole trimmed
text case-insensitively against the configured category names, with no
separator convention. -/
theorem C2_amended_thm (uid : Nat) (now : Int) (sub : Submission)
    (localPath : String) (ud ud1 : UserData) (subj : String) (st : BotState)
    (h1 : get_fixed_subject now ud = (some subj, ud1))
    (h2 : get_file_by_unique uid sub.tg_unique_id st.rows = none)
    (h3 : get_file_by_hash uid sub.content_hash st.rows = none)
    (h4 : hasConflict uid sub.tg_unique_id sub.content_hash st.rows = false) :
    handle_file uid now sub localPath ud st =
      (.added st.nextId, ud1,
        { rows := st.rows ++
            [{ id := st.nextId, user_id := uid, subject := subj,
               file_type := sub.file_type, tg_file_id := sub.tg_file_id,
               tg_unique_id := sub.tg_unique_id,
               filename := some sub.safe_name, caption := sub.caption,
               local_path := some localPath, file_size := sub.file_size,
               content_hash := sub.content_hash, added_at := now,
               is_fav := false, is_deleted := false, deleted_at := none }],
          nextId := st.nextId + 1,
          fs := localPath :: st.fs }) := by
  unfold handle_file
  rw [h1, h2]
  simp only [handle_file_afterDownload]
  rw [h3]
  simp only [handle_file_restoreOrInsert]
  rw [h2]
  simp only [handle_file_insert, add_file_row]
  rw [if_neg (by simp [h4])]

/-- The row the `c2` submission is expected to produce: sticky subject
`Drama`, caption stored verbatim. -/
def c2_newRow : FileRow :=
  { id := 1, user_id := 7, subject := "Drama", file_type := "document",
    tg_file_id := "f1", tg_unique_id := some "u1", filename := some "a.pdf",
    caption := some "Linguistics - lecture 1", local_path := some "p",
    file_size := some 10, content_hash := some "h2", added_at := 100,
    is_fav := false, is_deleted := false, deleted_at := none }

/-- Witness for C2 (amended): the concrete `c2` submission is stored with
the sticky subject `Drama` and its caption untouched. -/
theorem C2_amended_thm_witness :
    handle_file 7 100 c2_sub "p" c2_ud c2_st =
      (.added 1, c2_ud, ⟨[c2_newRow], 2, ["p"]⟩) :=
  C2_amended_thm 7 100 c2_sub "p" c2_ud c2_ud "Drama" c2_st (by decide)
    (by decide) (by decide) (by decide)

/-! ## C3 — no catch-all default category -/

/-- A submission arriving with no sticky binding in the session. -/
def c3_sub : Submission :=
  { file_type := "document", tg_file_id := "f1", tg_unique_id := some "u1",
    safe_name := "a.pdf", caption := none, file_size := some 10,
    content_hash := some "h1" }

/-- An empty library for the C3 scenario. -/
def c3_st : BotState := ⟨[], 1, []⟩

/-- C3 counterexample: with no explicit hint, no sticky binding and no menu
selection, `handle_file` does not classify the item into any catch-all
category — it refuses the submission (reply "write the subject first") and
stores nothing. -/
theorem C3_counterexample :
    handle_file 7 100 c3_sub "p" UserData.empty c3_st =
      (.noSubject, UserData.empty, c3_st) ∧
    (handle_file 7 100 c3_sub "p" UserData.empty c3_st).2.2.rows = [] := by
  decide

/-- C3 (amended): the classification step *can* fail: whenever the sticky
binding does not resolve, `handle_file` stops with the "no subject" reply
and leaves the whole state unchanged — there is no configured default
catch-all category. -/
theorem C3_amended_thm (uid : Nat) (now : Int) (sub : Submission)
    (localPath : String) (ud ud1 : UserData) (st : BotState)
    (h1 : get_fixed_subject now ud = (none, ud1)) :
    handle_file uid now sub localPath ud st = (.noSubject, ud1, st) := by
  unfold handle_file
  rw [h1]

/-- Witness for C3 (amended) at the empty session. -/
theorem C3_amended_thm_witness :
    handle_file 7 100 c3_sub "p" UserData.empty c3_st =
      (.noSubject, UserData.empty, c3_st) :=
  C3_amended_thm 7 100 c3_sub "p" UserData.empty UserData.empty c3_st
    (by decide)

/-! ## C9 — what `search_files` actually matches -/

/-- An active row whose subject contains the query but whose filename and
caption do not. -/
def c9_row : FileRow :=
  { id := 1, user_id := 7, subject := "Poetry", file_type := "document",
    tg_file_id := "f1", tg_unique_id := some "u1",
    filename := some "syllabus", caption := none, local_path := none,
    file_size := some 10, content_hash := some "h1", added_at := 0,
    is_fav := false, is_deleted := false, deleted_at := none }

/-- C9 counterexample: the query `poetry` is a case-insensitive substring
of the active `c9_row`'s category (`Poetry`), yet `search_files` returns
nothing — the WHERE clause matches only `filename` and `caption`, not the
category, contradicting the claimed match surface. -/
theorem C9_counterexample :
    ci_substr "poetry" c9_row.subject = true ∧
    c9_row.is_deleted = false ∧
    search_files 7 "poetry" 30 [c9_row] = [] := by decide

/-- C9 (amended): `search_files` returns exactly the active records of the
owner whose `filename` (display name) or `caption` (note) — but not the
category — matches the SQL pattern `LIKE '%q%'` case-insensitively, where
`%` and `_` inside the query keep their wildcard meaning (the query is
interpolated unescaped): every result satisfies the predicate, the result
is bounded by `limit` and sorted most-recent first (descending id), and
whenever at most `limit` records match, membership in the result is
exactly membership-plus-match. -/
theorem C9_amended_thm (uid : Nat) (q : String) (limit : Nat)
    (rows : List FileRow) :
    (∀ r, r ∈ search_files uid q limit rows → search_pred uid q r = true) ∧
    (search_files uid q limit rows).length ≤ limit ∧
    List.Sorted recentLE (search_files uid q limit rows) ∧
    ((rows.filter (search_pred uid q)).length ≤ limit →
      ∀ r, r ∈ search_files uid q limit rows ↔
        r ∈ rows ∧ search_pred uid q r = true) := by
  refine ⟨?_, ?_, ?_, ?_⟩
  · intro r hr
    exact (List.mem_filter.1
      ((List.mem_insertionSort recentLE).1 (List.mem_of_mem_take hr))).2
  · exact List.length_take_le _ _
  · exact List.Pairwise.take (List.sorted_insertionSort recentLE _)
  · intro hlen r
    unfold search_files
    rw [List.take_of_length_le (by rw [List.length_insertionSort]; exact hlen),
      List.mem_insertionSort, List.mem_filter]

/-- An active row matched by the query `syl` through its filename. -/
def c9b_row : FileRow :=
  { id := 2, user_id := 7, subject := "Drama", file_type := "document",
    tg_file_id := "f2", tg_unique_id := some "u2",
    filename := some "Syllabus 2024", caption := none, local_path := none,
    file_size := some 11, content_hash := some "h2", added_at := 0,
    is_fav := false, is_deleted := false, deleted_at := none }

/-- Witness for C9 (amended): `c9b_row` matches `syl` case-insensitively in
its filename and is returned by `search_files`; the wildcard-bearing query
`syl_abus` also matches the filename `Syllabus 2024` through the `_`
wildcard even though it is not a literal substring of it. -/
theorem C9_amended_thm_witness :
    search_pred 7 "syl" c9b_row = true ∧
    c9b_row ∈ search_files 7 "syl" 30 [c9b_row] ∧
    search_pred 7 "syl_abus" c9b_row = true ∧
    ci_substr "syl_abus" "Syllabus 2024" = false :=
  ⟨by decide,
   ((C9_amended_thm 7 "syl" 30 [c9b_row]).2.2.2 (by decide) c9b_row).mpr
     ⟨by decide, by decide⟩,
   by decide, by decide⟩

end UniBot
